import Mathlib

/-!
Verification development for the onsong-service relay and its proxy agent.

The relay (server file) keeps a registry of connected proxy agents keyed by
"churchToolsUrl:uuid", authenticates tenant HTTP calls against that registry,
and correlates request/response pairs over each agent's WebSocket by generated
request ids.  The agent (proxy-template server file) tracks locally discovered
devices with debounced removal, supervises the uplink connection with a
watchdog, and runs an auth-retry / ping-keepalive state machine per
(device id, auth token) key.

Every definition below is a direct shallow embedding of the corresponding
JavaScript function; socket handles and timer handles are modelled as natural
number identifiers, JSON string fields as `String` or `Option String`
(`none` standing for an absent / `undefined` field).
-/

namespace OnSong

/-! ## Relay: sessions and the connection registry

The relay keeps `connections : Map` from the string key
`churchToolsUrl + ":" + uuid` to a session record.  We model the map as a
function to `Option Session`; `ws` is the socket handle, `requestHandlers`
the pending-request table (request id paired with an abstract handler token).
-/

structure Session where
  churchToolsUrl : String
  secret : String
  uuid : String
  location : String
  isPublic : Bool
  ws : Nat
  requestHandlers : List (String × Nat)
  registeredAt : Nat
  proxyVersion : String
deriving DecidableEq

abbrev ConnMap := String → Option Session

def emptyConnMap : ConnMap := fun _ => none

/-- The registry key: `churchToolsUrl:uuid`. -/
def connKey (churchToolsUrl uuid : String) : String :=
  churchToolsUrl ++ ":" ++ uuid

/-- Fields of an inbound `register` wire message; `none` models an absent
JSON field and `""` an empty string (both falsy in the source). -/
structure RegisterMsg where
  churchToolsUrl : String
  secret : String
  uuid : String
  location : Option String
  isPublic : Option Bool
  proxyVersion : Option String
deriving DecidableEq

/-- A `register` message is rejected (error message, socket closed) when any of
churchToolsUrl, secret, uuid is falsy. -/
def registerMsgValid (msg : RegisterMsg) : Bool :=
  !(msg.churchToolsUrl = "" || msg.secret = "" || msg.uuid = "")

/-- The session record installed by the `register` branch: defaults
`location || ''`, `public || false`, `proxyVersion || 'unknown'`, and a
fresh empty `requestHandlers` table. -/
def mkSession (msg : RegisterMsg) (ws now : Nat) : Session :=
  { churchToolsUrl := msg.churchToolsUrl
    secret := msg.secret
    uuid := msg.uuid
    location := msg.location.getD ""
    isPublic := msg.isPublic.getD false
    ws := ws
    requestHandlers := []
    registeredAt := now
    proxyVersion :=
      match msg.proxyVersion with
      | none => "unknown"
      | some v => if v = "" then "unknown" else v }

/-- Registry-mutating socket lifecycle events.  `register msg ws now` is a
`register` message arriving on socket `ws`; `close key ws` is the close
handler of socket `ws` whose `registeredKey` local variable is `key`. -/
inductive RegEvent where
  | register (msg : RegisterMsg) (ws now : Nat)
  | close (key : String) (ws : Nat)
deriving DecidableEq

/-- One registry mutation.  An invalid `register` leaves the map unchanged
(error is sent and the socket closed).  The close handler deletes by
`registeredKey` alone — it does not check that the stored session still
belongs to the closing socket. -/
def stepReg (m : ConnMap) : RegEvent → ConnMap
  | .register msg ws now =>
      if registerMsgValid msg then
        fun k =>
          if k = connKey msg.churchToolsUrl msg.uuid then some (mkSession msg ws now)
          else m k
      else m
  | .close key _ =>
      fun k => if k = key then none else m k

def runReg (m : ConnMap) (es : List RegEvent) : ConnMap :=
  es.foldl stepReg m

/-- Whether an event mutates the entry at `key`: a valid registration for
`key`, or any close carrying `key`. -/
def touchesKey (key : String) : RegEvent → Bool
  | .register msg _ _ => registerMsgValid msg && connKey msg.churchToolsUrl msg.uuid = key
  | .close k _ => k = key

/-! ## Relay: data-path authentication (`findAndAuthenticateConnection`) -/

inductive AuthResult where
  | err (msg : String) (status : Nat)
  | ok (conn : Session)
deriving DecidableEq

/-- The source function `findAndAuthenticateConnection(churchToolsUrl, secret, uuid)`.
`secret` is the presented `X-AUTH` header (`none` for absent), `uuid` the
`X-ID` header (`""` for absent, matching JS falsiness). -/
def findAndAuthenticateConnection (m : ConnMap) (churchToolsUrl : String)
    (secret : Option String) (uuid : String) : AuthResult :=
  if uuid = "" then .err "Missing UUID" 401
  else
    match m (connKey churchToolsUrl uuid) with
    | none => .err "No proxy connected" 403
    | some conn =>
        if !conn.isPublic && some conn.secret ≠ secret then .err "Invalid secret" 403
        else .ok conn

/-! ## Relay: presence check (`/proxycheck`)

After the missing-header and referrer checks, the endpoint reports
`registered: true` iff a connection exists at the key and its secret equals
the presented one — the public flag is never consulted here. -/

def proxycheckRegistered (m : ConnMap) (churchToolsUrl uuid secret : String) : Bool :=
  match m (connKey churchToolsUrl uuid) with
  | none => false
  | some conn => conn.secret = secret

/-! ## Relay: request correlator (`sendToProxy` and the response dispatch)

`sendToProxy` installs a handler under a fresh request id together with an
armed timeout timer; the handler (run on a matching `discover-response` /
`api-response`) clears the timer, deletes the entry and resolves the caller;
the timeout callback deletes the entry and rejects the caller.  Handler
presence and timer being armed coincide by construction (they are created
together and each destroys both), so a single pending list models both.
Response payloads are abstracted to `Nat`. -/

structure CorrState where
  pending : List String
  resolved : List (String × Nat)
  rejected : List String
deriving DecidableEq

inductive CorrEvent where
  | response (rid : String) (payload : Nat)
  | timeout (rid : String)
deriving DecidableEq

/-- One correlator step.  A response whose id matches no pending entry is
dropped silently; a timeout event only exists for a still-armed timer,
i.e. a still-pending entry. -/
def corrStep (s : CorrState) : CorrEvent → CorrState
  | .response rid payload =>
      if rid ∈ s.pending then
        { pending := s.pending.erase rid
          resolved := s.resolved ++ [(rid, payload)]
          rejected := s.rejected }
      else s
  | .timeout rid =>
      if rid ∈ s.pending then
        { pending := s.pending.erase rid
          resolved := s.resolved
          rejected := s.rejected ++ [rid] }
      else s

def corrRun (s : CorrState) (es : List CorrEvent) : CorrState :=
  es.foldl corrStep s

/-- How many times the caller for `rid` has been resolved. -/
def resolvedCount (s : CorrState) (rid : String) : Nat :=
  (s.resolved.map Prod.fst).count rid

/-- How many times the caller for `rid` has been rejected with Timeout. -/
def rejectedCount (s : CorrState) (rid : String) : Nat :=
  s.rejected.count rid

/-- Total "tokens" for `rid`: pending occurrences plus deliveries. -/
def tokenCount (s : CorrState) (rid : String) : Nat :=
  s.pending.count rid + resolvedCount s rid + rejectedCount s rid

/-! ## Relay: data-path endpoint status mapping

Outcome of `await sendToProxy(...)` as seen by the two data-path endpoint
handlers: either the promise rejected (timeout) or the agent's reply arrived
with a `success` flag, optional status code and optional error text. -/

inductive ProxyCall where
  | timeout
  | reply (success : Bool) (statusCode : Option Nat) (error : Option String)
deriving DecidableEq

/-- The `/discover` response handling: 200 on success, 500 with
"Discovery failed" on an agent-reported failure, 504 on correlator timeout. -/
def discoverHttpStatus : ProxyCall → Nat
  | .timeout => 504
  | .reply true _ _ => 200
  | .reply false _ _ => 500

/-- The `/api/*` response handling: `response.statusCode || 200` on success,
502 "Bad Gateway" on an agent-reported failure, 504 on correlator timeout. -/
def apiHttpStatus : ProxyCall → Nat
  | .timeout => 504
  | .reply true sc _ =>
      match sc with
      | none => 200
      | some c => if c = 0 then 200 else c
  | .reply false _ _ => 502

/-! ## Agent: device registry (continuous Bonjour monitoring)

The agent keeps `deviceRegistry : Map<deviceId, device>` (insertion-ordered,
modelled as an association list so that iteration order is preserved) and
`deviceRemovalTimers : Map<deviceId, timeoutId>`.  Armed `setTimeout` handles
are modelled as the list `armed` of timer ids that were armed and have been
neither cleared (`clearTimeout`) nor fired. -/

/-- A Bonjour service event payload; `txtRole` / `txtDeviceid` model
`service.txt.role` / `service.txt.deviceid` (`none` = absent). -/
structure Service where
  name : String
  type : String
  host : String
  addresses : List String
  port : Nat
  txtRole : Option String
  txtDeviceid : Option String
deriving DecidableEq

/-- A stored device record, built from the event payload. -/
structure Device where
  name : String
  type : String
  host : String
  addresses : List String
  port : Nat
  txtRole : Option String
  txtDeviceid : Option String
deriving DecidableEq

def mkDevice (svc : Service) : Device :=
  { name := svc.name
    type := svc.type
    host := svc.host
    addresses := svc.addresses
    port := svc.port
    txtRole := svc.txtRole
    txtDeviceid := svc.txtDeviceid }

/-- The function `getDeviceId`: the `deviceid` TXT attribute, or `'unknown-device'`
when the attribute is absent or falsy. -/
def getDeviceId (svc : Service) : String :=
  match svc.txtDeviceid with
  | none => "unknown-device"
  | some d => if d = "" then "unknown-device" else d

/-- The `browser.on('up')` filter: role must be `server` or `client` and the
`deviceid` attribute must be truthy. -/
def serviceAccepted (svc : Service) : Bool :=
  (svc.txtRole = some "server" || svc.txtRole = some "client")
    && !(svc.txtDeviceid = none || svc.txtDeviceid = some "")

abbrev DeviceRegistry := List (String × Device)

def regGet (reg : DeviceRegistry) (id : String) : Option Device :=
  (reg.find? (fun p => p.1 = id)).map Prod.snd

/-- JS `Map.set` semantics: replace in place when the key exists, else append (JS `Map`
preserves insertion order). -/
def regSet (reg : DeviceRegistry) (id : String) (d : Device) : DeviceRegistry :=
  if (reg.find? (fun p => p.1 = id)).isSome then
    reg.map (fun p => if p.1 = id then (id, d) else p)
  else reg ++ [(id, d)]

def regDel (reg : DeviceRegistry) (id : String) : DeviceRegistry :=
  reg.filter (fun p => p.1 ≠ id)

/-- Monitoring state: the device registry, the removal-timer map, and the
set of armed (not yet cleared or fired) timer ids. -/
structure DevMon where
  registry : DeviceRegistry
  timerMap : String → Option Nat
  armed : List Nat

/-- The truthiness of `device.addresses.find(addr => !addr.includes(':'))`:
the first address containing no colon, if any, must be a non-empty string. -/
def ipv4Truthy (addrs : List String) : Bool :=
  match addrs.find? (fun a => !a.data.contains ':') with
  | none => false
  | some a => !(a = "")

/-- The removal-timer cancellation at the start of the `up` handler: if a
removal timer is stored for the id, `clearTimeout` it (disarm) and delete
the map entry. -/
def cancelRemovalTimer (st : DevMon) (id : String) : DevMon :=
  match st.timerMap id with
  | some tid =>
      { st with
        timerMap := fun k => if k = id then none else st.timerMap k
        armed := st.armed.filter (fun t => t ≠ tid) }
  | none => st

/-- The guarded upsert at the end of the `up` handler: store the incoming
record if the id is new or the record carries a truthy IPv4-style address. -/
def upsertDevice (st : DevMon) (svc : Service) : DevMon :=
  if regGet st.registry (getDeviceId svc) = none || ipv4Truthy svc.addresses then
    { st with registry := regSet st.registry (getDeviceId svc) (mkDevice svc) }
  else st

/-- The `browser.on('up')` handler: filter, cancel a pending removal timer for the id,
then upsert the record if the id is new or the incoming record carries a
truthy IPv4-style address. -/
def upEvent (st : DevMon) (svc : Service) : DevMon :=
  if serviceAccepted svc then
    upsertDevice (cancelRemovalTimer st (getDeviceId svc)) svc
  else st

/-- The `browser.on('down')` handler: unknown id is ignored; otherwise a removal timer
`tid` with delay `1000 * 600` ms is armed and stored in the timer map
(overwriting any stored handle without clearing it). -/
def downEvent (st : DevMon) (svc : Service) (tid : Nat) : DevMon :=
  let id := getDeviceId svc
  if regGet st.registry id = none then st
  else
    { st with
      timerMap := fun k => if k = id then some tid else st.timerMap k
      armed := tid :: st.armed }

/-- The removal delay passed to `setTimeout`: `1000 * 600` ms (10 minutes). -/
def DEVICE_REMOVAL_GRACE_MS : Nat := 1000 * 600

/-- The removal timer callback for `(id, tid)`.  It can only run while `tid`
is still armed (a cleared timer never fires); firing consumes the timer,
then deletes the device and its timer-map entry if the device is still
registered. -/
def fireEvent (st : DevMon) (id : String) (tid : Nat) : DevMon :=
  if tid ∈ st.armed then
    let st1 := { st with armed := st.armed.filter (fun t => t ≠ tid) }
    if regGet st1.registry id = none then st1
    else
      { st1 with
        registry := regDel st1.registry id
        timerMap := fun k => if k = id then none else st1.timerMap k }
  else st

/-! ## Agent: connection watchdog -/

def PING_TIMEOUT_MS : Nat := 70000

/-- The `setInterval` period of the watchdog check. -/
def WATCHDOG_CHECK_INTERVAL_MS : Nat := 10000

/-- Delay before reconnecting after a watchdog breach. -/
def WATCHDOG_RECONNECT_DELAY_MS : Nat := 1000

/-- Watchdog-relevant agent state.  `forciblyTerminated` records that the
socket was closed via `ws.terminate()` (abortive) rather than `ws.close()`;
`reconnectAt` the single scheduled reconnect time, if any. -/
structure WdState where
  lastPingTime : Nat
  watchdogRunning : Bool
  wsOpen : Bool
  forciblyTerminated : Bool
  reconnectAt : Option Nat
deriving DecidableEq

inductive WdEvent where
  | check (now : Nat)
  | ping (now : Nat)
deriving DecidableEq

/-- One watchdog-relevant event.  `check now` is one tick of the watchdog
interval (it only runs while the watchdog is running): on breach
(`now - lastPingTime > PING_TIMEOUT_MS`) it stops the watchdog, terminates
the socket and schedules a reconnect after 1 s; otherwise it does nothing.
`ping now` is an inbound `ping` message: `resetWatchdog` sets
`lastPingTime = Date.now()` (a `pong` is also sent, not modelled). -/
def wdStep (s : WdState) : WdEvent → WdState
  | .check now =>
      if s.watchdogRunning then
        if now - s.lastPingTime > PING_TIMEOUT_MS then
          { s with
            watchdogRunning := false
            wsOpen := false
            forciblyTerminated := true
            reconnectAt := some (now + WATCHDOG_RECONNECT_DELAY_MS) }
        else s
      else s
  | .ping now => { s with lastPingTime := now }

def wdRun (s : WdState) (es : List WdEvent) : WdState :=
  es.foldl wdStep s

/-- Every `check` in the trace happens within the ping threshold of the
then-current `lastPingTime`. -/
def noBreachTrace (s : WdState) : List WdEvent → Prop
  | [] => True
  | e :: es =>
      (match e with
        | .check now => now - s.lastPingTime ≤ PING_TIMEOUT_MS
        | .ping _ => True)
      ∧ noBreachTrace (wdStep s e) es

instance (s : WdState) (es : List WdEvent) : Decidable (noBreachTrace s es) := by
  induction es generalizing s with
  | nil => exact isTrue trivial
  | cons e es ih =>
      simp only [noBreachTrace]
      cases e with
      | check now => exact @instDecidableAnd _ _ _ (ih _)
      | ping now => exact @instDecidableAnd _ _ _ (ih _)

/-! ## Agent: auto-request state machine (auth retry / ping keepalive)

`autoRequestStates : Map<stateKey, state>` keyed by
`deviceId + ":" + authToken`; each state holds an interval timer and an
overall expiry timer.  Armed timer handles are modelled as in `DevMon`. -/

inductive Phase where
  | authRetry
  | pingKeepalive
deriving DecidableEq

structure ARState where
  deviceId : String
  authToken : String
  phase : Phase
  intervalTimer : Nat
  timeoutTimer : Nat
deriving DecidableEq

structure AgentAuto where
  states : String → Option ARState
  armed : List Nat

def getAutoRequestStateKey (deviceId authToken : String) : String :=
  deviceId ++ ":" ++ authToken

/-- The function `cleanupAutoRequests`: if a state exists for the key, clear its interval
timer and its timeout timer and delete it from the map; otherwise no-op. -/
def cleanupAutoRequests (st : AgentAuto) (stateKey : String) : AgentAuto :=
  match st.states stateKey with
  | none => st
  | some s =>
      { states := fun k => if k = stateKey then none else st.states k
        armed :=
          (st.armed.filter (fun t => t ≠ s.intervalTimer)).filter
            (fun t => t ≠ s.timeoutTimer) }

/-- The function `startAuthRetry`: clean up any existing state for the key, then install
a fresh auth-retry state with a new interval timer `t1` (2 s period) and a
new expiry timer `t2` (60 s). -/
def startAuthRetry (st : AgentAuto) (deviceId authToken : String)
    (t1 t2 : Nat) : AgentAuto :=
  let stateKey := getAutoRequestStateKey deviceId authToken
  let st1 := cleanupAutoRequests st stateKey
  { states := fun k =>
      if k = stateKey then
        some { deviceId := deviceId, authToken := authToken, phase := .authRetry
               intervalTimer := t1, timeoutTimer := t2 }
      else st1.states k
    armed := t1 :: t2 :: st1.armed }

/-- The function `startPingKeepalive`: same shape as `startAuthRetry` with the
ping-keepalive phase. -/
def startPingKeepalive (st : AgentAuto) (deviceId authToken : String)
    (t1 t2 : Nat) : AgentAuto :=
  let stateKey := getAutoRequestStateKey deviceId authToken
  let st1 := cleanupAutoRequests st stateKey
  { states := fun k =>
      if k = stateKey then
        some { deviceId := deviceId, authToken := authToken, phase := .pingKeepalive
               intervalTimer := t1, timeoutTimer := t2 }
      else st1.states k
    armed := t1 :: t2 :: st1.armed }

def AUTO_REQUEST_INTERVAL_MS : Nat := 2000

def AUTO_REQUEST_DURATION_MS : Nat := 60000

/-! ## Agent: the api-request auth trigger in `handleMessage` -/

/-- The match `path.match(/^\/api\/([^\/]+)\/auth$/)`: the captured token,
or `none` when the path does not match.  Modelled on the character list:
the path must be `/api/` ++ token ++ `/auth` with a non-empty token that
contains no slash. -/
def parseAuthPath (path : String) : Option String :=
  let cs := path.data
  if cs.take 5 = "/api/".data && cs.drop (cs.length - 5) = "/auth".data
      && 5 + 5 ≤ cs.length then
    let mid := (cs.drop 5).take (cs.length - 10)
    if 0 < mid.length && !mid.contains '/' then some (String.mk mid) else none
  else none

/-- The deviceId lookup: the first entry of the registry (in insertion
order) whose address list contains `targetIp`. -/
def findDeviceByIp (reg : DeviceRegistry) (targetIp : String) : Option String :=
  (reg.find? (fun p => p.2.addresses.contains targetIp)).map Prod.fst

/-- Result of `makeDeviceRequest`: `success` with the device's status code,
or a transport failure with no status code. -/
structure DeviceResult where
  success : Bool
  statusCode : Option Nat
deriving DecidableEq

/-- The auth trigger at the end of the `api-request` branch of
`handleMessage`: when the path matches `/api/{token}/auth` and a registered
device's address list contains `targetIp`, a failed call
(`!result.success || result.statusCode >= 400`) starts auth retry and a 200
starts ping keepalive; otherwise the auto-request map is untouched.
`t1 t2` are the fresh timer handles the started state would use. -/
def handleApiAuthTrigger (st : AgentAuto) (reg : DeviceRegistry)
    (path targetIp : String) (result : DeviceResult) (t1 t2 : Nat) : AgentAuto :=
  match parseAuthPath path with
  | none => st
  | some authToken =>
      match findDeviceByIp reg targetIp with
      | none => st
      | some deviceId =>
          if !result.success
              || (match result.statusCode with
                  | some c => decide (c ≥ 400)
                  | none => false) then
            startAuthRetry st deviceId authToken t1 t2
          else if result.statusCode = some 200 then
            startPingKeepalive st deviceId authToken t1 t2
          else st

/-! ## Theorems -/

/-- A correlator step never increases the total number of pending
occurrences plus deliveries for a given request id. -/
theorem tokenCount_corrStep_le (s : CorrState) (e : CorrEvent) (rid : String) :
    tokenCount (corrStep s e) rid ≤ tokenCount s rid := by
  unfold tokenCount resolvedCount rejectedCount
  cases e with
  | response rid' payload =>
      by_cases hmem : rid' ∈ s.pending
      · simp only [corrStep, if_pos hmem, List.map_append, List.count_append,
          List.map_cons, List.map_nil]
        by_cases h : rid = rid'
        · subst h
          have hc : 0 < s.pending.count rid := List.count_pos_iff.mpr hmem
          rw [List.count_erase_self]
          have h1 : List.count rid [rid] = 1 := by simp
          omega
        · rw [List.count_erase_of_ne h]
          have h0 : List.count rid [rid'] = 0 := by simp [h]
          omega
      · simp only [corrStep, if_neg hmem]
        exact le_refl _
  | timeout rid' =>
      by_cases hmem : rid' ∈ s.pending
      · simp only [corrStep, if_pos hmem, List.count_append]
        by_cases h : rid = rid'
        · subst h
          have hc : 0 < s.pending.count rid := List.count_pos_iff.mpr hmem
          rw [List.count_erase_self]
          have h1 : List.count rid [rid] = 1 := by simp
          omega
        · rw [List.count_erase_of_ne h]
          have h0 : List.count rid [rid'] = 0 := by simp [h]
          omega
      · simp only [corrStep, if_neg hmem]
        exact le_refl _

theorem tokenCount_corrRun_le (s : CorrState) (es : List CorrEvent) (rid : String) :
    tokenCount (corrRun s es) rid ≤ tokenCount s rid := by
  induction es generalizing s with
  | nil => exact le_refl _
  | cons e es ih =>
      have h1 : corrRun s (e :: es) = corrRun (corrStep s e) es := rfl
      rw [h1]
      exact le_trans (ih (corrStep s e)) (tokenCount_corrStep_le s e rid)

/-- C1: a pending correlator entry is destroyed exactly once.  For a freshly
registered request id (pending exactly once, never yet delivered): a
matching response removes the entry and resolves the caller with that
response, after which the id is no longer pending and the timeout event is
a no-op (the timer was cancelled); a timeout firing first removes the entry
and rejects the caller; a response whose id matches no pending entry leaves
the state untouched; and along any event sequence the caller is delivered
(resolved or rejected) at most once. -/
theorem C1_correlator_destroyed_exactly_once (s : CorrState) (rid : String) (v : Nat)
    (es : List CorrEvent)
    (hp : s.pending.count rid = 1)
    (hr : resolvedCount s rid = 0)
    (hj : rejectedCount s rid = 0) :
    corrStep s (.response rid v)
        = { pending := s.pending.erase rid
            resolved := s.resolved ++ [(rid, v)]
            rejected := s.rejected }
      ∧ rid ∉ (corrStep s (.response rid v)).pending
      ∧ corrStep (corrStep s (.response rid v)) (.timeout rid)
          = corrStep s (.response rid v)
      ∧ corrStep s (.timeout rid)
          = { pending := s.pending.erase rid
              resolved := s.resolved
              rejected := s.rejected ++ [rid] }
      ∧ (∀ t (v' : Nat), rid ∉ t.pending → corrStep t (.response rid v') = t)
      ∧ resolvedCount (corrRun s es) rid + rejectedCount (corrRun s es) rid ≤ 1 := by
  have hmem : rid ∈ s.pending := List.count_pos_iff.mp (by omega)
  have hnot : rid ∉ s.pending.erase rid := by
    intro hmem2
    have hc := List.count_pos_iff.mpr hmem2
    rw [List.count_erase_self] at hc
    omega
  refine ⟨by simp [corrStep, hmem], ?_, ?_, by simp [corrStep, hmem], ?_, ?_⟩
  · simpa [corrStep, hmem] using hnot
  · simp [corrStep, hmem, hnot]
  · intro t v' hnmem
    simp [corrStep, hnmem]
  · have htot := tokenCount_corrRun_le s es rid
    unfold tokenCount at htot
    rw [hp, hr, hj] at htot
    omega

/-- An event that does not touch `key` leaves the registry entry at `key`
unchanged. -/
theorem stepReg_untouched (m : ConnMap) (key : String) (e : RegEvent)
    (h : touchesKey key e = false) : stepReg m e key = m key := by
  cases e with
  | register msg ws now =>
      simp only [touchesKey] at h
      by_cases hv : registerMsgValid msg = true
      · rw [hv] at h
        simp only [Bool.true_and, decide_eq_false_iff_not] at h
        simp [stepReg, hv, Ne.symm h]
      · simp [stepReg, hv]
  | close k ws =>
      simp only [touchesKey, decide_eq_false_iff_not] at h
      simp [stepReg, Ne.symm h]

theorem runReg_untouched (m : ConnMap) (key : String) (es : List RegEvent)
    (h : ∀ e ∈ es, touchesKey key e = false) : runReg m es key = m key := by
  induction es generalizing m with
  | nil => rfl
  | cons e es ih =>
      have h1 : runReg m (e :: es) = runReg (stepReg m e) es := rfl
      rw [h1, ih (stepReg m e) (fun e' he' => h e' (List.mem_cons_of_mem e he')),
        stepReg_untouched m key e (h e (List.mem_cons_self e es))]

def c3Msg : RegisterMsg :=
  { churchToolsUrl := "demo.church.tools"
    secret := "s1"
    uuid := "u1"
    location := none
    isPublic := none
    proxyVersion := some "2.0.0" }

def c3Key : String := connKey "demo.church.tools" "u1"

def c3m1 : ConnMap := stepReg emptyConnMap (.register c3Msg 1 0)

def c3m2 : ConnMap := stepReg c3m1 (.register c3Msg 2 5)

def c3m3 : ConnMap := stepReg c3m2 (.close c3Key 1)

/-- C3 counterexample: socket 1 registers key k, socket 2 re-registers the
same key (orphaning socket 1), and then socket 1 — not the owning socket of
the current Session, whose socket is 2 — closes.  The close handler deletes
by registered key alone, so the lookup for k stops returning the current
Session even though it was neither replaced nor did its owning socket
close, contradicting the claim. -/
theorem C3_counterexample :
    c3m2 c3Key = some (mkSession c3Msg 2 5)
      ∧ (mkSession c3Msg 2 5).ws = 2
      ∧ (mkSession c3Msg 1 0).ws = 1
      ∧ c3m3 c3Key = none := by
  exact ⟨by rfl, rfl, rfl, by rfl⟩

/-- C3 (amended): after a valid registration for identity key k, a lookup
for k returns that Session for all subsequent lookups until a later
registration for k or until any socket whose registered key is k closes —
the close of an orphaned prior socket for k also removes it, not only the
owning socket's close.  Re-registration replaces the prior Session
wholesale with a fresh, empty pending-request table, leaves the prior
Session unreachable via the registry, and affects no other key. -/
theorem C3_registry_lookup_until_touched (m : ConnMap) (msg : RegisterMsg)
    (ws now : Nat) (es : List RegEvent)
    (hv : registerMsgValid msg = true)
    (hes : ∀ e ∈ es, touchesKey (connKey msg.churchToolsUrl msg.uuid) e = false) :
    stepReg m (.register msg ws now) (connKey msg.churchToolsUrl msg.uuid)
        = some (mkSession msg ws now)
      ∧ (mkSession msg ws now).requestHandlers = []
      ∧ (∀ k, k ≠ connKey msg.churchToolsUrl msg.uuid →
          stepReg m (.register msg ws now) k = m k)
      ∧ (∀ old : Session, old.ws ≠ ws →
          (∀ k, m k = some old → k = connKey msg.churchToolsUrl msg.uuid) →
          ∀ k, stepReg m (.register msg ws now) k ≠ some old)
      ∧ runReg (stepReg m (.register msg ws now)) es (connKey msg.churchToolsUrl msg.uuid)
          = some (mkSession msg ws now) := by
  have hkey : stepReg m (.register msg ws now) (connKey msg.churchToolsUrl msg.uuid)
      = some (mkSession msg ws now) := by
    simp [stepReg, hv]
  have hother : ∀ k, k ≠ connKey msg.churchToolsUrl msg.uuid →
      stepReg m (.register msg ws now) k = m k := by
    intro k hk
    simp [stepReg, hv, hk]
  refine ⟨hkey, rfl, hother, ?_, ?_⟩
  · intro old hws hreach k heq
    by_cases hk : k = connKey msg.churchToolsUrl msg.uuid
    · rw [hk, hkey] at heq
      have : (mkSession msg ws now).ws = old.ws := by rw [Option.some_inj.mp heq]
      exact hws (by simpa using this.symm)
    · rw [hother k hk] at heq
      exact hk (hreach k heq)
  · rw [runReg_untouched _ _ es hes, hkey]

theorem c3m1_apply (k : String) :
    c3m1 k = if k = c3Key then some (mkSession c3Msg 1 0) else none := by
  unfold c3m1
  simp only [stepReg]
  rw [if_pos (by decide : registerMsgValid c3Msg = true)]
  rfl

/-- C3 witness: the re-registration by socket 2 replaces socket 1's session
(now unreachable), and survives an unrelated socket's close event. -/
theorem C3_witness :
    stepReg c3m1 (.register c3Msg 2 5) c3Key = some (mkSession c3Msg 2 5)
      ∧ stepReg c3m1 (.register c3Msg 2 5) c3Key ≠ some (mkSession c3Msg 1 0)
      ∧ runReg (stepReg c3m1 (.register c3Msg 2 5)) [.close "other.church.tools:u9" 4] c3Key
          = some (mkSession c3Msg 2 5) :=
  have hreach : ∀ k, c3m1 k = some (mkSession c3Msg 1 0) → k = connKey "demo.church.tools" "u1" := by
    intro k hk
    by_cases h : k = c3Key
    · exact h
    · rw [c3m1_apply k, if_neg h] at hk
      exact Option.noConfusion hk
  have t := C3_registry_lookup_until_touched c3m1 c3Msg 2 5
    [.close "other.church.tools:u9" 4] (by decide) (by decide)
  ⟨t.1, t.2.2.2.1 (mkSession c3Msg 1 0) (by decide) hreach c3Key, t.2.2.2.2⟩

def c1State : CorrState := { pending := ["req-1"], resolved := [], rejected := [] }

/-- C1 witness: the single pending request `req-1`, resolved by a response
and then hit by a late timeout event, is delivered exactly once. -/
theorem C1_witness :
    corrStep c1State (.response "req-1" 5)
        = { pending := List.erase ["req-1"] "req-1"
            resolved := [("req-1", 5)]
            rejected := [] }
      ∧ resolvedCount (corrRun c1State [.response "req-1" 5, .timeout "req-1"]) "req-1"
          + rejectedCount (corrRun c1State [.response "req-1" 5, .timeout "req-1"]) "req-1"
          ≤ 1 :=
  have t := C1_correlator_destroyed_exactly_once c1State "req-1" 5
    [.response "req-1" 5, .timeout "req-1"] (by decide) (by decide) (by decide)
  ⟨t.1, t.2.2.2.2.2⟩

/-- C4 counterexample: on the `/discover` endpoint an agent-reported failure
(a reply with `success = false`) is surfaced as HTTP 500, not 502 as the
claim states for every data-path endpoint. -/
theorem C4_counterexample :
    discoverHttpStatus (.reply false none (some "scan failed")) = 500
      ∧ (500 : Nat) ≠ 502 := by
  exact ⟨rfl, by decide⟩

/-- C4 (amended): a Request Correlator timeout is surfaced as HTTP 504 on
both data-path endpoints; an agent-reported failure (`success = false`) is
surfaced as HTTP 502 on `/api/*` but as HTTP 500 on `/discover`; all three
failure codes are pairwise distinct from each other and from the 504
timeout code. -/
theorem C4_failure_status_codes :
    discoverHttpStatus .timeout = 504
      ∧ apiHttpStatus .timeout = 504
      ∧ (∀ sc err, apiHttpStatus (.reply false sc err) = 502)
      ∧ (∀ sc err, discoverHttpStatus (.reply false sc err) = 500)
      ∧ (504 : Nat) ≠ 502 ∧ (504 : Nat) ≠ 500 ∧ (502 : Nat) ≠ 500 := by
  refine ⟨rfl, rfl, fun sc err => rfl, fun sc err => rfl, by decide, by decide, by decide⟩

/-- C2: the data-path authentication check accepts exactly when the session
is public or the presented secret equals the stored one; a non-public
session (whose stored secret is non-empty, as registration guarantees)
rejects an absent or empty presented secret; a public session accepts any
presented secret including none. -/
theorem C2_data_path_authenticate (m : ConnMap) (churchToolsUrl uuid : String)
    (conn : Session) (x : Option String)
    (huuid : uuid ≠ "")
    (hconn : m (connKey churchToolsUrl uuid) = some conn) :
    (findAndAuthenticateConnection m churchToolsUrl x uuid = .ok conn
        ↔ (conn.isPublic = true ∨ x = some conn.secret))
      ∧ (conn.isPublic = false → conn.secret ≠ "" →
          findAndAuthenticateConnection m churchToolsUrl none uuid
              = .err "Invalid secret" 403
            ∧ findAndAuthenticateConnection m churchToolsUrl (some "") uuid
              = .err "Invalid secret" 403)
      ∧ (conn.isPublic = true →
          findAndAuthenticateConnection m churchToolsUrl x uuid = .ok conn) := by
  have hstep : ∀ y, findAndAuthenticateConnection m churchToolsUrl y uuid =
      if (!conn.isPublic && decide (some conn.secret ≠ y)) = true
      then .err "Invalid secret" 403 else .ok conn := by
    intro y
    unfold findAndAuthenticateConnection
    rw [if_neg huuid, hconn]
  refine ⟨?_, ?_, ?_⟩
  · rw [hstep x]
    by_cases hp : conn.isPublic = true
    · simp [hp]
    · by_cases hx : x = some conn.secret
      · simp [hp, hx]
      · have hxs : some conn.secret ≠ x := fun h => hx h.symm
        simp [hp, hx, hxs]
  · intro hp hs
    have h1 : some conn.secret ≠ (none : Option String) := by simp
    have h2 : some conn.secret ≠ some "" := by simpa using hs
    refine ⟨?_, ?_⟩
    · rw [hstep none]
      simp [hp, h1]
    · rw [hstep (some "")]
      simp [hp, h2]
  · intro hp
    rw [hstep x]
    simp [hp]

def c2Session : Session :=
  { churchToolsUrl := "demo.church.tools"
    secret := "s1"
    uuid := "u1"
    location := ""
    isPublic := false
    ws := 1
    requestHandlers := []
    registeredAt := 0
    proxyVersion := "2.0.0" }

def c2Map : ConnMap :=
  fun k => if k = "demo.church.tools:u1" then some c2Session else none

/-- C2 witness at a concrete non-public session with secret `s1`: the right
secret is accepted, an absent one and an empty one are rejected. -/
theorem C2_witness :
    findAndAuthenticateConnection c2Map "demo.church.tools" (some "s1") "u1"
        = .ok c2Session
      ∧ findAndAuthenticateConnection c2Map "demo.church.tools" none "u1"
          = .err "Invalid secret" 403
      ∧ findAndAuthenticateConnection c2Map "demo.church.tools" (some "") "u1"
          = .err "Invalid secret" 403 :=
  have t := C2_data_path_authenticate c2Map "demo.church.tools" "u1" c2Session (some "s1")
    (by decide) (by rfl)
  ⟨t.1.mpr (Or.inr rfl), (t.2.1 rfl (by decide)).1, (t.2.1 rfl (by decide)).2⟩

/-- C9: `/proxycheck` reports the agent registered exactly when a session
exists at the key and its stored secret equals the presented one; the
public flag never bypasses this comparison; and a positive answer implies
the data-path check also accepts, so the presence check is at least as
strict — while a public session with a mismatched secret passes the
data-path check yet fails the presence check (strictly stronger). -/
theorem C9_proxycheck_requires_secret (m : ConnMap) (churchToolsUrl uuid secret : String) :
    (proxycheckRegistered m churchToolsUrl uuid secret = true
        ↔ ∃ conn, m (connKey churchToolsUrl uuid) = some conn ∧ conn.secret = secret)
      ∧ (∀ conn, m (connKey churchToolsUrl uuid) = some conn →
          conn.isPublic = true → conn.secret ≠ secret →
          proxycheckRegistered m churchToolsUrl uuid secret = false
            ∧ findAndAuthenticateConnection m churchToolsUrl (some secret) uuid
                = if uuid = "" then .err "Missing UUID" 401 else .ok conn)
      ∧ (∀ conn, m (connKey churchToolsUrl uuid) = some conn → uuid ≠ "" →
          proxycheckRegistered m churchToolsUrl uuid secret = true →
          findAndAuthenticateConnection m churchToolsUrl (some secret) uuid = .ok conn) := by
  refine ⟨?_, ?_, ?_⟩
  · unfold proxycheckRegistered
    cases h : m (connKey churchToolsUrl uuid) with
    | none => simp [h]
    | some conn => simp [h]
  · intro conn hconn hp hne
    constructor
    · unfold proxycheckRegistered
      rw [hconn]
      simp [hne]
    · unfold findAndAuthenticateConnection
      by_cases hu : uuid = ""
      · simp [hu]
      · rw [if_neg hu, hconn, if_neg hu]
        simp [hp]
  · intro conn hconn hu hreg
    have hsec : conn.secret = secret := by
      unfold proxycheckRegistered at hreg
      rw [hconn] at hreg
      simpa using hreg
    unfold findAndAuthenticateConnection
    rw [if_neg hu, hconn]
    simp [hsec]

def c9PubSession : Session :=
  { churchToolsUrl := "demo.church.tools"
    secret := "s1"
    uuid := "u1"
    location := ""
    isPublic := true
    ws := 1
    requestHandlers := []
    registeredAt := 0
    proxyVersion := "2.0.0" }

def c9Map : ConnMap :=
  fun k => if k = "demo.church.tools:u1" then some c9PubSession else none

/-- C9 witness at a concrete public session: a wrong secret passes the
data-path check but the presence check still reports not registered. -/
theorem C9_witness :
    proxycheckRegistered c9Map "demo.church.tools" "u1" "wrong" = false
      ∧ findAndAuthenticateConnection c9Map "demo.church.tools" (some "wrong") "u1"
          = .ok c9PubSession :=
  have t := (C9_proxycheck_requires_secret c9Map "demo.church.tools" "u1" "wrong").2.1
    c9PubSession (by rfl) (by rfl) (by decide)
  ⟨t.1, by simpa using t.2⟩

/-- C5: at most one AutoRequestState exists per (deviceId, authToken) key.
Both `startAuthRetry` and `startPingKeepalive` first clear the prior
state's interval timer and timeout timer and delete it from the map before
installing the new state, so the old timer set is fully disarmed, exactly
the new state sits at the key afterwards, and no other key is affected. -/
theorem C5_single_auto_request_state (st : AgentAuto) (deviceId authToken : String)
    (old : ARState) (t1 t2 : Nat)
    (hold : st.states (getAutoRequestStateKey deviceId authToken) = some old)
    (hi : old.intervalTimer ∈ st.armed)
    (ho : old.timeoutTimer ∈ st.armed)
    (hf1 : t1 ∉ st.armed)
    (hf2 : t2 ∉ st.armed) :
    ((startAuthRetry st deviceId authToken t1 t2).states
          (getAutoRequestStateKey deviceId authToken)
        = some { deviceId := deviceId, authToken := authToken, phase := .authRetry
                 intervalTimer := t1, timeoutTimer := t2 })
      ∧ old.intervalTimer ∉ (startAuthRetry st deviceId authToken t1 t2).armed
      ∧ old.timeoutTimer ∉ (startAuthRetry st deviceId authToken t1 t2).armed
      ∧ (∀ k, k ≠ getAutoRequestStateKey deviceId authToken →
          (startAuthRetry st deviceId authToken t1 t2).states k = st.states k)
      ∧ ((startPingKeepalive st deviceId authToken t1 t2).states
            (getAutoRequestStateKey deviceId authToken)
          = some { deviceId := deviceId, authToken := authToken, phase := .pingKeepalive
                   intervalTimer := t1, timeoutTimer := t2 })
      ∧ old.intervalTimer ∉ (startPingKeepalive st deviceId authToken t1 t2).armed
      ∧ old.timeoutTimer ∉ (startPingKeepalive st deviceId authToken t1 t2).armed
      ∧ (∀ k, k ≠ getAutoRequestStateKey deviceId authToken →
          (startPingKeepalive st deviceId authToken t1 t2).states k = st.states k) := by
  have h1 : old.intervalTimer ≠ t1 := fun h => hf1 (h ▸ hi)
  have h2 : old.intervalTimer ≠ t2 := fun h => hf2 (h ▸ hi)
  have h3 : old.timeoutTimer ≠ t1 := fun h => hf1 (h ▸ ho)
  have h4 : old.timeoutTimer ≠ t2 := fun h => hf2 (h ▸ ho)
  refine ⟨?_, ?_, ?_, ?_, ?_, ?_, ?_, ?_⟩
  · simp [startAuthRetry, cleanupAutoRequests, hold]
  · simp [startAuthRetry, cleanupAutoRequests, hold, List.mem_filter, h1, h2]
  · simp [startAuthRetry, cleanupAutoRequests, hold, List.mem_filter, h3, h4]
  · intro k hk
    simp [startAuthRetry, cleanupAutoRequests, hold, hk]
  · simp [startPingKeepalive, cleanupAutoRequests, hold]
  · simp [startPingKeepalive, cleanupAutoRequests, hold, List.mem_filter, h1, h2]
  · simp [startPingKeepalive, cleanupAutoRequests, hold, List.mem_filter, h3, h4]
  · intro k hk
    simp [startPingKeepalive, cleanupAutoRequests, hold, hk]

def c5Old : ARState :=
  { deviceId := "dev1", authToken := "tok1", phase := .authRetry
    intervalTimer := 10, timeoutTimer := 11 }

def c5St : AgentAuto :=
  { states := fun k => if k = "dev1:tok1" then some c5Old else none
    armed := [10, 11] }

/-- C5 witness: starting a second timer set for `dev1:tok1` disarms the old
timers 10 and 11 and leaves exactly the new state at the key. -/
theorem C5_witness :
    (startAuthRetry c5St "dev1" "tok1" 20 21).states "dev1:tok1"
        = some { deviceId := "dev1", authToken := "tok1", phase := .authRetry
                 intervalTimer := 20, timeoutTimer := 21 }
      ∧ (10 : Nat) ∉ (startAuthRetry c5St "dev1" "tok1" 20 21).armed
      ∧ (11 : Nat) ∉ (startAuthRetry c5St "dev1" "tok1" 20 21).armed
      ∧ (10 : Nat) ∉ (startPingKeepalive c5St "dev1" "tok1" 20 21).armed :=
  have t := C5_single_auto_request_state c5St "dev1" "tok1" c5Old 20 21
    (by rfl) (by decide) (by decide) (by decide) (by decide)
  ⟨t.1, t.2.1, t.2.2.1, t.2.2.2.2.2.1⟩

/-- C10: after an `api-request` whose path matches `/api/{token}/auth`, an
AutoRequestState (either phase) is created only if some device currently in
the registry has the request's `targetIp` in its address list; when no
registered device's addresses contain `targetIp`, the auto-request map is
left untouched regardless of the device call's outcome.  When a device is
found and the call failed, the auth-retry state is started. -/
theorem C10_auth_trigger_requires_registered_device (st : AgentAuto)
    (reg : DeviceRegistry) (path targetIp : String) (result : DeviceResult)
    (t1 t2 : Nat) :
    ((∀ p ∈ reg, targetIp ∉ p.2.addresses) →
        handleApiAuthTrigger st reg path targetIp result t1 t2 = st)
      ∧ (handleApiAuthTrigger st reg path targetIp result t1 t2 ≠ st →
          ∃ id dev, (id, dev) ∈ reg ∧ targetIp ∈ dev.addresses)
      ∧ (∀ token deviceId, parseAuthPath path = some token →
          findDeviceByIp reg targetIp = some deviceId →
          result.success = false →
          handleApiAuthTrigger st reg path targetIp result t1 t2
            = startAuthRetry st deviceId token t1 t2) := by
  have hnofind : (∀ p ∈ reg, targetIp ∉ p.2.addresses) →
      findDeviceByIp reg targetIp = none := by
    intro h
    unfold findDeviceByIp
    rw [List.find?_eq_none.mpr]
    · rfl
    · intro p hp
      simpa using h p hp
  have hmain : ∀ hdrop : ∀ p ∈ reg, targetIp ∉ p.2.addresses,
      handleApiAuthTrigger st reg path targetIp result t1 t2 = st := by
    intro hdrop
    cases hp : parseAuthPath path with
    | none => simp [handleApiAuthTrigger, hp]
    | some token => simp [handleApiAuthTrigger, hp, hnofind hdrop]
  refine ⟨hmain, ?_, ?_⟩
  · intro hne
    by_contra hnone
    push_neg at hnone
    exact hne (hmain (fun p hp hmem => hnone p.1 p.2 (by simpa using hp) hmem))
  · intro token deviceId hp hfind hres
    simp [handleApiAuthTrigger, hp, hfind, hres]

def c10Dev : Device :=
  { name := "OnSong device", type := "onsong", host := "onsong.local"
    addresses := ["192.168.1.20"], port := 80
    txtRole := some "server", txtDeviceid := some "dev1" }

def c10Reg : DeviceRegistry := [("dev1", c10Dev)]

def c10St : AgentAuto := { states := fun _ => none, armed := [] }

/-- C10 witness: with only `dev1` at 192.168.1.20 registered, a failed auth
call targeting an unknown ip creates nothing, while one targeting the
registered ip starts auth retry for `dev1`. -/
theorem C10_witness :
    handleApiAuthTrigger c10St c10Reg "/api/tok/auth" "10.0.0.9"
        { success := false, statusCode := none } 7 8 = c10St
      ∧ handleApiAuthTrigger c10St c10Reg "/api/tok/auth" "192.168.1.20"
          { success := false, statusCode := none } 7 8
          = startAuthRetry c10St "dev1" "tok" 7 8 :=
  ⟨(C10_auth_trigger_requires_registered_device c10St c10Reg "/api/tok/auth"
      "10.0.0.9" { success := false, statusCode := none } 7 8).1 (by decide),
   (C10_auth_trigger_requires_registered_device c10St c10Reg "/api/tok/auth"
      "192.168.1.20" { success := false, statusCode := none } 7 8).2.2 "tok" "dev1"
      (by decide) (by decide) rfl⟩

/-- Along a trace in which every watchdog check happens within the ping
threshold, all watchdog state except `lastPingTime` is preserved. -/
theorem wdRun_noBreach (s : WdState) (es : List WdEvent) (h : noBreachTrace s es) :
    (wdRun s es).wsOpen = s.wsOpen
      ∧ (wdRun s es).watchdogRunning = s.watchdogRunning
      ∧ (wdRun s es).forciblyTerminated = s.forciblyTerminated
      ∧ (wdRun s es).reconnectAt = s.reconnectAt := by
  induction es generalizing s with
  | nil => exact ⟨rfl, rfl, rfl, rfl⟩
  | cons e es ih =>
      obtain ⟨h1, h2⟩ := h
      have hrun : wdRun s (e :: es) = wdRun (wdStep s e) es := rfl
      rw [hrun]
      have key := ih (wdStep s e) h2
      cases e with
      | check t =>
          have hnotgt : ¬ (t - s.lastPingTime > PING_TIMEOUT_MS) := not_lt.mpr h1
          have hs : wdStep s (.check t) = s := by
            simp only [wdStep]
            by_cases hr : s.watchdogRunning = true
            · rw [if_pos hr, if_neg hnotgt]
            · rw [if_neg hr]
          rw [hs] at h2
          rw [hs]
          exact ih s h2
      | ping t =>
          simp only [wdStep] at key
          exact key

/-- C7: the watchdog interval is 10 s and the threshold 70 s; a check while
the watchdog runs and more than 70 s have elapsed since the last ping stops
the watchdog, forcibly terminates the socket and schedules exactly one
reconnect 1 s later; a check within the threshold changes nothing; a
received ping resets the elapsed-time reference and nothing else; and along
any event trace whose checks all fall within the threshold of the evolving
last-ping time, the connection is never force-closed by the watchdog. -/
theorem C7_watchdog_forced_reconnect (s : WdState) (now : Nat) (es : List WdEvent) :
    PING_TIMEOUT_MS = 70000
      ∧ WATCHDOG_CHECK_INTERVAL_MS = 10000
      ∧ WATCHDOG_RECONNECT_DELAY_MS = 1000
      ∧ (s.watchdogRunning = true → now - s.lastPingTime > PING_TIMEOUT_MS →
          wdStep s (.check now)
            = { s with watchdogRunning := false, wsOpen := false
                       forciblyTerminated := true
                       reconnectAt := some (now + WATCHDOG_RECONNECT_DELAY_MS) })
      ∧ (now - s.lastPingTime ≤ PING_TIMEOUT_MS → wdStep s (.check now) = s)
      ∧ ((wdStep s (.ping now)).lastPingTime = now
          ∧ (wdStep s (.ping now)).wsOpen = s.wsOpen
          ∧ (wdStep s (.ping now)).watchdogRunning = s.watchdogRunning
          ∧ (wdStep s (.ping now)).reconnectAt = s.reconnectAt)
      ∧ (noBreachTrace s es →
          (wdRun s es).wsOpen = s.wsOpen
            ∧ (wdRun s es).watchdogRunning = s.watchdogRunning
            ∧ (wdRun s es).forciblyTerminated = s.forciblyTerminated
            ∧ (wdRun s es).reconnectAt = s.reconnectAt) := by
  refine ⟨rfl, rfl, rfl, ?_, ?_, ⟨rfl, rfl, rfl, rfl⟩, wdRun_noBreach s es⟩
  · intro hr hgt
    simp only [wdStep]
    rw [if_pos hr, if_pos hgt]
  · intro hle
    simp only [wdStep]
    by_cases hr : s.watchdogRunning = true
    · rw [if_pos hr, if_neg (not_lt.mpr hle)]
    · rw [if_neg hr]

def c7Start : WdState :=
  { lastPingTime := 0, watchdogRunning := true, wsOpen := true
    forciblyTerminated := false, reconnectAt := none }

def c7Trace : List WdEvent :=
  [.ping 60000, .check 65000, .ping 120000, .check 130000]

/-- C7 witness: pings arriving within the threshold keep the socket open
through two checks, while a check 80 s after the last ping breaches. -/
theorem C7_witness :
    (wdRun c7Start c7Trace).wsOpen = c7Start.wsOpen
      ∧ wdStep c7Start (.check 80000)
          = { c7Start with watchdogRunning := false, wsOpen := false
                           forciblyTerminated := true, reconnectAt := some 81000 } :=
  have t := C7_watchdog_forced_reconnect c7Start 80000 c7Trace
  ⟨(t.2.2.2.2.2.2 (by decide)).1, t.2.2.2.1 rfl (by decide)⟩

theorem regGet_cons_self (p : String × Device) (tl : DeviceRegistry) (id : String)
    (hp : p.1 = id) : regGet (p :: tl) id = some p.2 := by
  unfold regGet
  rw [List.find?_cons_of_pos _ (by simp [hp])]
  rfl

theorem regGet_cons_ne (p : String × Device) (tl : DeviceRegistry) (id : String)
    (hp : p.1 ≠ id) : regGet (p :: tl) id = regGet tl id := by
  unfold regGet
  rw [List.find?_cons_of_neg _ (by simp [hp])]

theorem regSet_cons_ne (p : String × Device) (tl : DeviceRegistry) (id : String)
    (d : Device) (hp : p.1 ≠ id) :
    regSet (p :: tl) id d = p :: regSet tl id d := by
  unfold regSet
  rw [List.find?_cons_of_neg _ (by simp [hp])]
  by_cases h2 : (tl.find? (fun q => decide (q.1 = id))).isSome = true
  · rw [if_pos h2, if_pos h2, List.map_cons, if_neg hp]
  · rw [if_neg h2, if_neg h2]
    rfl

theorem regGet_map_set_ne (tl : DeviceRegistry) (id id' : String) (d : Device)
    (h : id' ≠ id) :
    regGet (tl.map (fun q => if q.1 = id then (id, d) else q)) id' = regGet tl id' := by
  induction tl with
  | nil => rfl
  | cons q tl ih =>
      rw [List.map_cons]
      by_cases hq : q.1 = id
      · rw [if_pos hq, regGet_cons_ne (id, d) _ id' (fun hh => h hh.symm),
          regGet_cons_ne q tl id' (fun hh => h (hh.symm.trans hq))]
        exact ih
      · rw [if_neg hq]
        by_cases hq' : q.1 = id'
        · rw [regGet_cons_self q _ id' hq', regGet_cons_self q tl id' hq']
        · rw [regGet_cons_ne q _ id' hq', regGet_cons_ne q tl id' hq']
          exact ih

theorem regGet_regSet_self (reg : DeviceRegistry) (id : String) (d : Device) :
    regGet (regSet reg id d) id = some d := by
  induction reg with
  | nil =>
      show regGet (regSet [] id d) id = some d
      unfold regSet
      rw [if_neg (by simp)]
      exact regGet_cons_self (id, d) [] id rfl
  | cons p tl ih =>
      by_cases hp : p.1 = id
      · have hf : (p :: tl).find? (fun q => decide (q.1 = id)) = some p :=
          List.find?_cons_of_pos _ (by simp [hp])
        unfold regSet
        rw [hf]
        simp only [Option.isSome_some, if_true, List.map_cons, if_pos hp]
        exact regGet_cons_self (id, d) _ id rfl
      · rw [regSet_cons_ne p tl id d hp, regGet_cons_ne p _ id hp]
        exact ih

theorem regGet_regSet_ne (reg : DeviceRegistry) (id id' : String) (d : Device)
    (h : id' ≠ id) :
    regGet (regSet reg id d) id' = regGet reg id' := by
  induction reg with
  | nil =>
      show regGet (regSet [] id d) id' = regGet [] id'
      unfold regSet
      rw [if_neg (by simp)]
      exact regGet_cons_ne (id, d) [] id' (fun hh => h hh.symm)
  | cons p tl ih =>
      by_cases hp : p.1 = id
      · have hf : (p :: tl).find? (fun q => decide (q.1 = id)) = some p :=
          List.find?_cons_of_pos _ (by simp [hp])
        unfold regSet
        rw [hf]
        simp only [Option.isSome_some, if_true, List.map_cons, if_pos hp]
        rw [regGet_cons_ne (id, d) _ id' (fun hh => h hh.symm),
          regGet_cons_ne p tl id' (fun hh => h (hh.symm.trans hp))]
        exact regGet_map_set_ne tl id id' d h
      · rw [regSet_cons_ne p tl id d hp]
        by_cases hp' : p.1 = id'
        · rw [regGet_cons_self p _ id' hp', regGet_cons_self p tl id' hp']
        · rw [regGet_cons_ne p _ id' hp', regGet_cons_ne p tl id' hp']
          exact ih

theorem regGet_regDel_self (reg : DeviceRegistry) (id : String) :
    regGet (regDel reg id) id = none := by
  unfold regGet regDel
  rw [List.find?_eq_none.mpr]
  · rfl
  · intro p hp
    have := (List.mem_filter.mp hp).2
    simp at this ⊢
    exact this

theorem cancelRemovalTimer_registry (st : DevMon) (id : String) :
    (cancelRemovalTimer st id).registry = st.registry := by
  unfold cancelRemovalTimer
  cases st.timerMap id <;> rfl

theorem cancelRemovalTimer_some (st : DevMon) (id : String) (tid : Nat)
    (ht : st.timerMap id = some tid) :
    cancelRemovalTimer st id
      = { st with
          timerMap := fun k => if k = id then none else st.timerMap k
          armed := st.armed.filter (fun t => t ≠ tid) } := by
  unfold cancelRemovalTimer
  rw [ht]

theorem upsertDevice_timerMap (st : DevMon) (svc : Service) :
    (upsertDevice st svc).timerMap = st.timerMap := by
  unfold upsertDevice
  split <;> rfl

theorem upsertDevice_armed (st : DevMon) (svc : Service) :
    (upsertDevice st svc).armed = st.armed := by
  unfold upsertDevice
  split <;> rfl

theorem upsertDevice_registry_new (st : DevMon) (svc : Service)
    (hnone : regGet st.registry (getDeviceId svc) = none) :
    (upsertDevice st svc).registry
      = regSet st.registry (getDeviceId svc) (mkDevice svc) := by
  unfold upsertDevice
  rw [if_pos (by simp [hnone])]

theorem upsertDevice_registry_existing (st : DevMon) (svc : Service) (d : Device)
    (hd : regGet st.registry (getDeviceId svc) = some d) :
    (upsertDevice st svc).registry
      = if ipv4Truthy svc.addresses = true
        then regSet st.registry (getDeviceId svc) (mkDevice svc)
        else st.registry := by
  unfold upsertDevice
  by_cases hip : ipv4Truthy svc.addresses = true
  · rw [if_pos (by simp [hd, hip]), if_pos hip]
  · rw [if_neg (by simp [hd, hip]), if_neg hip]

theorem upsertDevice_presence (st : DevMon) (svc : Service) (k : String)
    (h : regGet st.registry k ≠ none) :
    regGet (upsertDevice st svc).registry k ≠ none := by
  unfold upsertDevice
  split
  · show regGet (regSet st.registry (getDeviceId svc) (mkDevice svc)) k ≠ none
    by_cases hk : k = getDeviceId svc
    · rw [hk, regGet_regSet_self]
      exact Option.noConfusion
    · rw [regGet_regSet_ne _ _ _ _ hk]
      exact h
  · exact h

/-- An `up` event never removes a present registry entry (it may update it). -/
theorem upEvent_preserves_presence (st : DevMon) (svc : Service) (k : String)
    (h : regGet st.registry k ≠ none) :
    regGet (upEvent st svc).registry k ≠ none := by
  unfold upEvent
  by_cases hacc : serviceAccepted svc = true
  · rw [if_pos hacc]
    have h1 : regGet (cancelRemovalTimer st (getDeviceId svc)).registry k ≠ none := by
      rw [cancelRemovalTimer_registry]
      exact h
    exact upsertDevice_presence _ svc k h1
  · rw [if_neg hacc]
    exact h

/-- A `down` event never touches the registry itself. -/
theorem downEvent_registry (st : DevMon) (svc : Service) (tid : Nat) :
    (downEvent st svc tid).registry = st.registry := by
  unfold downEvent
  by_cases hc : regGet st.registry (getDeviceId svc) = none
  · rw [if_pos hc]
  · rw [if_neg hc]

theorem upEvent_registry_new (st : DevMon) (svc : Service)
    (hacc : serviceAccepted svc = true)
    (hnone : regGet st.registry (getDeviceId svc) = none) :
    regGet (upEvent st svc).registry (getDeviceId svc) = some (mkDevice svc) := by
  unfold upEvent
  rw [if_pos hacc]
  have h1 : regGet (cancelRemovalTimer st (getDeviceId svc)).registry (getDeviceId svc)
      = none := by
    rw [cancelRemovalTimer_registry]
    exact hnone
  rw [upsertDevice_registry_new _ svc h1, regGet_regSet_self]

theorem upEvent_registry_existing (st : DevMon) (svc : Service) (d : Device)
    (hacc : serviceAccepted svc = true)
    (hd : regGet st.registry (getDeviceId svc) = some d) :
    regGet (upEvent st svc).registry (getDeviceId svc)
      = if ipv4Truthy svc.addresses = true then some (mkDevice svc) else some d := by
  unfold upEvent
  rw [if_pos hacc]
  have h1 : regGet (cancelRemovalTimer st (getDeviceId svc)).registry (getDeviceId svc)
      = some d := by
    rw [cancelRemovalTimer_registry]
    exact hd
  rw [upsertDevice_registry_existing _ svc d h1]
  by_cases hip : ipv4Truthy svc.addresses = true
  · rw [if_pos hip, if_pos hip, regGet_regSet_self]
  · rw [if_neg hip, if_neg hip]
    exact h1

/-- C6: a `down` event for a registered device id arms a single removal
timer with the 600-second grace period (a `down` for an unknown id does
nothing, and `down` itself never deletes from the registry); an `up` event
before the timer fires cancels the scheduled removal exactly once (armed
count drops from 1 to 0 and the timer-map entry is cleared), after which
that timer can no longer fire; so up → down → up within the grace window
never removes the device, and only a firing removal timer ever deletes. -/
theorem C6_down_debounce_up_cancels (st : DevMon) (svc : Service) (tid : Nat) (d : Device)
    (hacc : serviceAccepted svc = true)
    (hd : regGet st.registry (getDeviceId svc) = some d)
    (htid : tid ∉ st.armed) :
    DEVICE_REMOVAL_GRACE_MS = 600 * 1000
      ∧ (∀ (st' : DevMon) (svc' : Service) (tid' : Nat),
          regGet st'.registry (getDeviceId svc') = none → downEvent st' svc' tid' = st')
      ∧ (∀ (st' : DevMon) (svc' : Service) (tid' : Nat),
          (downEvent st' svc' tid').registry = st'.registry)
      ∧ (∀ (st' : DevMon) (svc' : Service) (k : String),
          regGet st'.registry k ≠ none → regGet (upEvent st' svc').registry k ≠ none)
      ∧ (downEvent st svc tid).timerMap (getDeviceId svc) = some tid
      ∧ (downEvent st svc tid).armed.count tid = 1
      ∧ (upEvent (downEvent st svc tid) svc).timerMap (getDeviceId svc) = none
      ∧ (upEvent (downEvent st svc tid) svc).armed.count tid = 0
      ∧ fireEvent (upEvent (downEvent st svc tid) svc) (getDeviceId svc) tid
          = upEvent (downEvent st svc tid) svc
      ∧ regGet (upEvent (downEvent st svc tid) svc).registry (getDeviceId svc) ≠ none := by
  have hnn : ¬ regGet st.registry (getDeviceId svc) = none := by simp [hd]
  have hdownEq : downEvent st svc tid
      = { st with
          timerMap := fun k => if k = getDeviceId svc then some tid else st.timerMap k
          armed := tid :: st.armed } := by
    unfold downEvent
    rw [if_neg hnn]
  have h5 : (downEvent st svc tid).timerMap (getDeviceId svc) = some tid := by
    rw [hdownEq]
    simp
  have h6 : (downEvent st svc tid).armed.count tid = 1 := by
    rw [hdownEq]
    show (tid :: st.armed).count tid = 1
    rw [List.count_cons_self, List.count_eq_zero.mpr htid]
  have h7 : (upEvent (downEvent st svc tid) svc).timerMap (getDeviceId svc) = none := by
    unfold upEvent
    rw [if_pos hacc, upsertDevice_timerMap, cancelRemovalTimer_some _ _ tid h5]
    simp
  have h8arm : (upEvent (downEvent st svc tid) svc).armed
      = (downEvent st svc tid).armed.filter (fun t => t ≠ tid) := by
    unfold upEvent
    rw [if_pos hacc, upsertDevice_armed, cancelRemovalTimer_some _ _ tid h5]
  have h8 : (upEvent (downEvent st svc tid) svc).armed.count tid = 0 := by
    rw [h8arm, List.count_eq_zero]
    intro hmem
    have := (List.mem_filter.mp hmem).2
    simp at this
  have h9 : fireEvent (upEvent (downEvent st svc tid) svc) (getDeviceId svc) tid
      = upEvent (downEvent st svc tid) svc := by
    unfold fireEvent
    rw [if_neg (List.count_eq_zero.mp h8)]
  have h10 : regGet (upEvent (downEvent st svc tid) svc).registry (getDeviceId svc)
      ≠ none := by
    apply upEvent_preserves_presence
    rw [downEvent_registry]
    simp [hd]
  refine ⟨by decide, ?_, downEvent_registry, upEvent_preserves_presence,
    h5, h6, h7, h8, h9, h10⟩
  intro st' svc' tid' hnone
  unfold downEvent
  rw [if_pos hnone]

def c6Svc : Service :=
  { name := "OnSong dev", type := "onsong", host := "dev.local"
    addresses := ["192.168.1.7"], port := 80
    txtRole := some "server", txtDeviceid := some "dev1" }

def c6St : DevMon :=
  { registry := [("dev1", mkDevice c6Svc)], timerMap := fun _ => none, armed := [] }

/-- C6 witness: registered `dev1` goes down (timer 5 armed once), comes back
up (timer cancelled), and the late firing of timer 5 removes nothing. -/
theorem C6_witness :
    (downEvent c6St c6Svc 5).timerMap (getDeviceId c6Svc) = some 5
      ∧ (downEvent c6St c6Svc 5).armed.count 5 = 1
      ∧ (upEvent (downEvent c6St c6Svc 5) c6Svc).armed.count 5 = 0
      ∧ fireEvent (upEvent (downEvent c6St c6Svc 5) c6Svc) (getDeviceId c6Svc) 5
          = upEvent (downEvent c6St c6Svc 5) c6Svc
      ∧ regGet (upEvent (downEvent c6St c6Svc 5) c6Svc).registry (getDeviceId c6Svc)
          ≠ none :=
  have t := C6_down_debounce_up_cancels c6St c6Svc 5 (mkDevice c6Svc)
    (by decide) (by decide) (by decide)
  ⟨t.2.2.2.2.1, t.2.2.2.2.2.1, t.2.2.2.2.2.2.2.1, t.2.2.2.2.2.2.2.2.1,
    t.2.2.2.2.2.2.2.2.2⟩

/-- C8: on an `up` event for an already-registered device id the stored
record is overwritten only when the incoming address list carries a truthy
IPv4-style address (truthy ⇒ some non-empty colon-free address exists); an
`up` carrying only IPv6-style (colon-containing) addresses or an empty
address list leaves the stored record unchanged; an unknown id is always
inserted. -/
theorem C8_up_upsert_ipv4_guard (st : DevMon) (svc : Service)
    (hacc : serviceAccepted svc = true) :
    (regGet st.registry (getDeviceId svc) = none →
        regGet (upEvent st svc).registry (getDeviceId svc) = some (mkDevice svc))
      ∧ (∀ d, regGet st.registry (getDeviceId svc) = some d →
          regGet (upEvent st svc).registry (getDeviceId svc)
            = if ipv4Truthy svc.addresses = true then some (mkDevice svc) else some d)
      ∧ (ipv4Truthy svc.addresses = true →
          ∃ a ∈ svc.addresses, a ≠ "" ∧ a.data.contains ':' = false)
      ∧ ((∀ a ∈ svc.addresses, a.data.contains ':' = true) →
          ∀ d, regGet st.registry (getDeviceId svc) = some d →
            regGet (upEvent st svc).registry (getDeviceId svc) = some d)
      ∧ (svc.addresses = [] →
          ∀ d, regGet st.registry (getDeviceId svc) = some d →
            regGet (upEvent st svc).registry (getDeviceId svc) = some d) := by
  refine ⟨upEvent_registry_new st svc hacc,
    fun d hd => upEvent_registry_existing st svc d hacc hd, ?_, ?_, ?_⟩
  · intro hip
    unfold ipv4Truthy at hip
    cases hf : svc.addresses.find? (fun a => !a.data.contains ':') with
    | none =>
        rw [hf] at hip
        exact absurd hip (by simp)
    | some a =>
        rw [hf] at hip
        refine ⟨a, List.mem_of_find?_eq_some hf, by simpa using hip, ?_⟩
        have := List.find?_some hf
        simpa using this
  · intro hall d hd
    have hip : ipv4Truthy svc.addresses = false := by
      unfold ipv4Truthy
      have hf : svc.addresses.find? (fun a => !a.data.contains ':') = none :=
        List.find?_eq_none.mpr (fun a ha => by simpa using hall a ha)
      rw [hf]
    rw [upEvent_registry_existing st svc d hacc hd, hip]
    simp
  · intro hempty d hd
    have hip : ipv4Truthy svc.addresses = false := by
      unfold ipv4Truthy
      rw [hempty]
      rfl
    rw [upEvent_registry_existing st svc d hacc hd, hip]
    simp

def c8DevOld : Device :=
  { name := "old", type := "onsong", host := "dev.local"
    addresses := ["10.0.0.3"], port := 80
    txtRole := some "server", txtDeviceid := some "dev1" }

def c8Svc6 : Service :=
  { name := "flap", type := "onsong", host := "dev.local"
    addresses := ["fe80::1"], port := 80
    txtRole := some "server", txtDeviceid := some "dev1" }

def c8Svc4 : Service :=
  { name := "fresh", type := "onsong", host := "dev.local"
    addresses := ["192.168.1.7"], port := 80
    txtRole := some "server", txtDeviceid := some "dev1" }

def c8St : DevMon :=
  { registry := [("dev1", c8DevOld)], timerMap := fun _ => none, armed := [] }

def c8StEmpty : DevMon :=
  { registry := [], timerMap := fun _ => none, armed := [] }

/-- C8 witness: an IPv6-only `up` inserts a new id but does not overwrite an
existing record; an IPv4-carrying `up` does overwrite it. -/
theorem C8_witness :
    regGet (upEvent c8StEmpty c8Svc6).registry (getDeviceId c8Svc6)
        = some (mkDevice c8Svc6)
      ∧ regGet (upEvent c8St c8Svc6).registry (getDeviceId c8Svc6) = some c8DevOld
      ∧ regGet (upEvent c8St c8Svc4).registry (getDeviceId c8Svc4)
          = some (mkDevice c8Svc4) :=
  have t6 := C8_up_upsert_ipv4_guard c8St c8Svc6 (by decide)
  have t4 := C8_up_upsert_ipv4_guard c8St c8Svc4 (by decide)
  have te := C8_up_upsert_ipv4_guard c8StEmpty c8Svc6 (by decide)
  ⟨te.1 (by decide),
   t6.2.2.2.1 (by decide) c8DevOld (by decide),
   by
     have h := t4.2.1 c8DevOld (by decide)
     rw [if_pos (by decide)] at h
     exact h⟩

end OnSong
